import Mathlib
/-!
Shallow embedding of `simple_data_loader` (src/simple_data_loader/simple_data_loader.py).

The Python program loads tabular data (CSV/XLSX/XLS) from a single file or
merges all supported files found in a directory into one pandas DataFrame,
with a configurable column-consistency policy (`error` / `warning` / `ignore`).

Modelling conventions:
- A pandas `DataFrame` is a column-name sequence, a row index and a row list.
- The external readers (`pd.read_csv` / `pd.read_excel`) are abstracted by a
  per-file `ParseOutcome`: either the parsed DataFrame or the message of the
  exception the reader raised (`str(e)` in the Python `except` clauses).
- The filesystem is a tree of named entries; `Path.glob("*")` lists the
  direct children, `Path.glob("**/*")` lists the whole subtree in the CPython
  order (children of a directory, then recursively each subdirectory).
- Console output (`print`) and `warnings.warn` are modelled explicitly: every
  translated method returns an `Outcome` carrying the list of printed lines,
  the list of emitted warnings, and an `Except` result.  Python exceptions
  become `Except.error` values; the distinct raise sites of the source are
  distinguished by `LoadError` constructors.
-/
/-! ### Characterization lemmas

The translated methods return `Outcome` records whose `result` and `warns`
components never depend on the `verbose` flag; the functions below compute
those components directly and are proved equal to the respective
projections.  They are proof devices, not part of the embedding. -/

/-- A single cell of a table; `Cell.null` models a pandas missing value (NaN). -/
inductive Cell where
  | null : Cell
  | val (s : String) : Cell
deriving DecidableEq

/-- A pandas DataFrame: ordered named columns, a row index, and rows.
Well-formed frames have rows as wide as `cols` (see `DataFrame.WF`). -/
structure DataFrame where
  cols : List String
  index : List Int
  rows : List (List Cell)
deriving DecidableEq

/-- Well-formedness of a frame: no duplicate column names, rows match width. -/
def DataFrame.WF (t : DataFrame) : Prop :=
  t.cols.Nodup ∧ ∀ r ∈ t.rows, r.length = t.cols.length

/-- Outcome of handing one file to the pandas reader selected by its
extension: the parsed frame, or the message of the raised exception. -/
inductive ParseOutcome where
  | ok (df : DataFrame) : ParseOutcome
  | err (msg : String) : ParseOutcome
deriving DecidableEq

/-- A candidate data file: its final path component and its reader outcome. -/
structure DataFile where
  name : String
  parse : ParseOutcome
deriving DecidableEq

/-- A filesystem entry, as seen by `Path.glob`: a regular file (with the
outcome the reader would produce for it) or a directory with children. -/
inductive FSEntry where
  | file (name : String) (parse : ParseOutcome) : FSEntry
  | dir (name : String) (children : List FSEntry) : FSEntry

/-- The distinct failure modes of the loader, one per raise site of the
source (the Python code raises `ValueError` / `FileNotFoundError` with
distinguishing messages; the spec names them as listed here).
`parseError` carries `str(e)` of a reader exception. -/
inductive LoadError where
  | notFound : LoadError
  | invalidPath : LoadError
  | invalidConfig : LoadError
  | unsupportedFormat (ext : String) : LoadError
  | noSupportedFiles : LoadError
  | noLoadableFiles : LoadError
  | schemaMismatch (msg : String) : LoadError
  | parseError (msg : String) : LoadError
deriving DecidableEq

/-- Result of a translated method: the console lines it printed, the
warnings it emitted via `warnings.warn`, and its value or raised error. -/
structure Outcome (α : Type) where
  prints : List String
  warns : List String
  result : Except LoadError α

/-- Configuration fields of the loader (`__init__` attributes other than the
path; the path is supplied to `load` as a `PathState` below). -/
structure SimpleDataLoader where
  include_subfolders : Bool
  verbose : Bool
  column_consistency : String
deriving DecidableEq

/-- What probing `self.file_path` can reveal in `load`: missing, a regular
file (with its name and reader outcome), a directory (with its children), or
an existing path that is neither (e.g. a socket). -/
inductive PathState where
  | absent : PathState
  | file (name : String) (parse : ParseOutcome) : PathState
  | dir (children : List FSEntry) : PathState
  | other : PathState

/-- Index of the last occurrence of a dot in a character list (Python
`name.rfind(".")` restricted to the found case). -/
def lastDotIdx : List Char → Option Nat
  | [] => none
  | c :: cs =>
    match lastDotIdx cs with
    | some i => some (i + 1)
    | none => if c = '.' then some 0 else none

/-- Python `pathlib.Path.suffix` of a final path component: the substring from the
last dot, provided that dot is neither the first nor the last character. -/
def fileSuffix (name : String) : String :=
  let cs := name.toList
  match lastDotIdx cs with
  | none => ""
  | some i => if 0 < i ∧ i < cs.length - 1 then String.mk (cs.drop i) else ""

/-- Python `str.lower` (the inputs here are ASCII extensions). -/
def strLower (s : String) : String :=
  String.mk (s.toList.map Char.toLower)

/-- Python `str.strip`: drop leading and trailing whitespace. -/
def pyStrip (s : String) : String :=
  String.mk (((s.toList.dropWhile Char.isWhitespace).reverse.dropWhile Char.isWhitespace).reverse)

/-- A single-quote character, for Python `repr` of strings. -/
def singleQuote : String := String.mk [Char.ofNat 39]

/-- Python `repr` of a plain string (no escaping needed for the names used
in diagnostics). -/
def pyStrRepr (s : String) : String := singleQuote ++ s ++ singleQuote

/-- Python `repr` of a list of strings, as interpolated by the f-strings of
`_check_column_consistency`. -/
def pyListRepr (l : List String) : String :=
  "[" ++ String.intercalate ", " (l.map pyStrRepr) ++ "]"

/-- The `supported_extensions` set of `_load_folder`. -/
def SDL_supported : List String := [".csv", ".xlsx", ".xls"]

/-- Embeds `SimpleDataLoader.__init__`: records the flags after validating the
`column_consistency` value against the list of the three policy strings. -/
def mkSimpleDataLoader (include_subfolders verbose : Bool) (column_consistency : String) :
    Except LoadError SimpleDataLoader :=
  if (["error", "warning", "ignore"] : List String).contains column_consistency then
    .ok ⟨include_subfolders, verbose, column_consistency⟩
  else
    .error .invalidConfig

/-- Kind test used by the `f.is_file()` filter. -/
def FSEntry.isFile : FSEntry → Bool
  | .file _ _ => true
  | .dir _ _ => false

/-- Name of an entry (its final path component, `Path.name`). -/
def FSEntry.name : FSEntry → String
  | .file n _ => n
  | .dir n _ => n

/-- The part of `Path.glob("**/*")` beyond the direct children: for each
directory in the listing (in order, depth first) its children are listed.
The CPython recursive glob enumerates the root first, then each subdirectory
depth first, and lists the children of each; the full `"**/*"` listing of a
root with children `cs` is therefore `cs ++ globAux cs`. -/
def globAux : List FSEntry → List FSEntry
  | [] => []
  | FSEntry.file _ _ :: rest => globAux rest
  | FSEntry.dir _ cs :: rest => (cs ++ globAux cs) ++ globAux rest

/-- The `files` list of `_load_folder`: `glob("**/*")` when
`include_subfolders` is set, `glob("*")` (the direct children) otherwise. -/
def filesOf (cfg : SimpleDataLoader) (children : List FSEntry) : List FSEntry :=
  if cfg.include_subfolders then children ++ globAux children else children

/-- The `data_files` filter of `_load_folder`:
`[f for f in files if f.is_file() and f.suffix.lower() in supported_extensions]`. -/
def dataFilesOf (files : List FSEntry) : List DataFile :=
  files.filterMap fun e =>
    match e with
    | .file n p =>
      if SDL_supported.contains (strLower (fileSuffix n)) then some ⟨n, p⟩ else none
    | .dir _ _ => none

/-- The verbose per-file import report printed after a successful read. -/
def importPrint (cfg : SimpleDataLoader) (name : String) (df : DataFrame) : List String :=
  if cfg.verbose then
    [name ++ " is imported with " ++ toString df.rows.length ++ " rows and " ++
      toString df.cols.length ++ " columns"]
  else []

/-- Embeds `_load_single_file` and `_load_single_file_from_path` (the two methods are
textually identical, the first reading `self.file_path`, the second its
argument): dispatch on the lowered extension, run the matching reader, and
print the import report when verbose.  An unrecognized extension raises
`Unsupported file format`; a reader exception propagates. -/
def load_single_file (cfg : SimpleDataLoader) (f : DataFile) : Outcome DataFrame :=
  let file_extension := strLower (fileSuffix f.name)
  if file_extension == ".csv" then
    match f.parse with
    | .ok df => ⟨importPrint cfg f.name df, [], .ok df⟩
    | .err m => ⟨[], [], .error (.parseError m)⟩
  else if ([".xlsx", ".xls"] : List String).contains file_extension then
    match f.parse with
    | .ok df => ⟨importPrint cfg f.name df, [], .ok df⟩
    | .err m => ⟨[], [], .error (.parseError m)⟩
  else
    ⟨[], [], .error (.unsupportedFormat file_extension)⟩

/-- Python `str(e)` for the exceptions `_load_single_file_from_path` can raise
(a reader exception, whose message is carried verbatim, or the unsupported
format `ValueError`); the remaining constructors cannot reach the folder
folder loop `except` clause and are given an unused placeholder. -/
def errStr : LoadError → String
  | .parseError m => m
  | .unsupportedFormat ext => "Unsupported file format: " ++ ext
  | _ => ""

/-- The per-file loading loop shared by both branches of `_load_folder`
(the two Python loops are identical except that the non-`ignore` one also
records the filename): each file is loaded; on success the frame (tagged
with the name of the file) is appended, on failure the error is swallowed,
`Error loading {name}: {str(e)}` is printed when verbose, and the loop
continues.  Returns the printed lines and the loaded `(frame, name)` list. -/
def loadFilesLoop (cfg : SimpleDataLoader) : List DataFile → List String × List (DataFrame × String)
  | [] => ([], [])
  | f :: rest =>
    let o := load_single_file cfg f
    let acc := loadFilesLoop cfg rest
    match o.result with
    | .ok df => (o.prints ++ acc.1, (df, f.name) :: acc.2)
    | .error e =>
      (o.prints ++ (if cfg.verbose then ["Error loading " ++ f.name ++ ": " ++ errStr e] else []) ++ acc.1,
       acc.2)

/-- One element of the `inconsistent_files` list of
`_check_column_consistency`. -/
structure Issue where
  file : String
  issue : String
  columns : List String
  expected : Option (List String)
deriving DecidableEq

/-- The comparison loop of `_check_column_consistency`: each non-reference
frame contributes a count-mismatch issue (no expected field), a
name-mismatch issue (with the expected reference names), or nothing. -/
def checkIssues (first_columns : List String) (rest : List (DataFrame × String)) : List Issue :=
  rest.filterMap fun p =>
    let current_columns := p.1.cols
    if current_columns.length ≠ first_columns.length then
      some { file := p.2,
             issue := "Column count mismatch: " ++ toString current_columns.length ++
               " vs " ++ toString first_columns.length,
             columns := current_columns, expected := none }
    else if current_columns ≠ first_columns then
      some { file := p.2, issue := "Column names mismatch",
             columns := current_columns, expected := some first_columns }
    else none

/-- The issues `_check_column_consistency` computes for a loaded-file list:
none when fewer than two files, otherwise the comparison against the first
(reference) file. -/
def issuesOf : List (DataFrame × String) → List Issue
  | [] => []
  | [_] => []
  | (first_df, _) :: rest => checkIssues first_df.cols rest

/-- The per-issue block of the composed error message. -/
def issueBlock (i : Issue) : String :=
  "File: " ++ i.file ++ "\n" ++
  "Issue: " ++ i.issue ++ "\n" ++
  (match i.expected with
   | some e => "Expected columns: " ++ pyListRepr e ++ "\n"
   | none => "") ++
  "Actual columns: " ++ pyListRepr i.columns ++ "\n\n"

/-- The composed consistency message: header, reference file and columns,
then one block per issue (before the final `.strip()`). -/
def composeMsg (first_filename : String) (first_columns : List String) (issues : List Issue) : String :=
  "Column consistency issues found:\n" ++
  "Reference file: " ++ first_filename ++ " (columns: " ++ pyListRepr first_columns ++ ")\n\n" ++
  String.join (issues.map issueBlock)

/-- The stripped consistency message for a loaded-file list whose head is
the reference file (the string passed to `raise` / `warnings.warn`). -/
def schemaMsgOf : List (DataFrame × String) → String
  | [] => ""
  | (first_df, first_filename) :: rest =>
    pyStrip (composeMsg first_filename first_df.cols (checkIssues first_df.cols rest))

/-- Embeds `_check_column_consistency`: no-op below two files; otherwise compare
every frame against the first and, when issues exist, raise the composed
message under `error`, emit it as a warning (plus a verbose notice) under
`warning`, and fall through under any other mode. -/
def check_column_consistency (cfg : SimpleDataLoader) (temp_dataframes : List (DataFrame × String)) :
    Outcome Unit :=
  match temp_dataframes with
  | [] => ⟨[], [], .ok ()⟩
  | [_] => ⟨[], [], .ok ()⟩
  | (first_df, first_filename) :: rest =>
    let first_columns := first_df.cols
    let inconsistent_files := checkIssues first_columns rest
    if inconsistent_files.isEmpty then ⟨[], [], .ok ()⟩
    else
      let error_message := composeMsg first_filename first_columns inconsistent_files
      if cfg.column_consistency == "error" then
        ⟨[], [], .error (.schemaMismatch (pyStrip error_message))⟩
      else if cfg.column_consistency == "warning" then
        ⟨if cfg.verbose then ["WARNING: Column consistency issues detected but continuing..."] else [],
         [pyStrip error_message], .ok ()⟩
      else ⟨[], [], .ok ()⟩

/-- Column layout produced by `pd.concat` along rows (default
`join="outer"`, `sort=False`): the columns of the first frame, then each
columns of each later frame that are not yet present, in order of appearance. -/
def unionCols (ts : List DataFrame) : List String :=
  ts.foldl (fun acc t => acc ++ t.cols.filter (fun c => decide (c ∉ acc))) []

/-- Position of a column name in a column list (first occurrence). -/
def idxOf? (c : String) : List String → Option Nat
  | [] => none
  | x :: xs => if x = c then some 0 else (idxOf? c xs).map (fun i => i + 1)

/-- Alignment of one row to the concatenated column layout: a column the
source frame has keeps its value, a column it lacks becomes NaN. -/
def reindexRow (tcols : List String) (row : List Cell) (ucols : List String) : List Cell :=
  ucols.map fun c =>
    match idxOf? c tcols with
    | some i => row.getD i Cell.null
    | none => Cell.null

/-- Embeds `pd.concat(dataframes, ignore_index=True)`: outer-union the column
layouts, align every row to it (file order, then row order within a file),
and reset the index to a dense 0-based range. -/
def pdConcatIgnoreIndex (ts : List DataFrame) : DataFrame :=
  let ucols := unionCols ts
  let rows := (ts.map fun t => t.rows.map fun r => reindexRow t.cols r ucols).flatten
  { cols := ucols, index := (List.range rows.length).map Int.ofNat, rows := rows }

/-- The verbose summary block printed at the end of `_load_folder`. -/
def summaryPrints (cfg : SimpleDataLoader) (file_count : Nat) (combined_df : DataFrame) : List String :=
  if cfg.verbose then
    ["\nSummary:",
     "Successfully loaded " ++ toString file_count ++ " files",
     "Combined dataset has " ++ toString combined_df.rows.length ++ " rows and " ++
       toString combined_df.cols.length ++ " columns"]
  else []

/-- Embeds `_load_folder`: list the folder (recursively when configured), keep the
supported regular files, fail with `No supported files` when none; under
`ignore` print the skip notice, load the files and concatenate; otherwise
load the files, run the consistency check (which may raise), and
concatenate; either way fail with `No files could be successfully loaded`
when every load failed. -/
def load_folder (cfg : SimpleDataLoader) (children : List FSEntry) : Outcome DataFrame :=
  let files := filesOf cfg children
  let data_files := dataFilesOf files
  if data_files.isEmpty then
    ⟨[], [], .error .noSupportedFiles⟩
  else
    let found_print :=
      if cfg.verbose then ["Found " ++ toString data_files.length ++ " files to process"] else []
    if cfg.column_consistency == "ignore" then
      let skip_print := if cfg.verbose then ["Column consistency check is skipped"] else []
      let loop := loadFilesLoop cfg data_files
      let dataframes := loop.2.map Prod.fst
      if dataframes.isEmpty then
        ⟨found_print ++ skip_print ++ loop.1, [], .error .noLoadableFiles⟩
      else
        let combined_df := pdConcatIgnoreIndex dataframes
        ⟨found_print ++ skip_print ++ loop.1 ++ summaryPrints cfg dataframes.length combined_df,
         [], .ok combined_df⟩
    else
      let loop := loadFilesLoop cfg data_files
      let temp_dataframes := loop.2
      if temp_dataframes.isEmpty then
        ⟨found_print ++ loop.1, [], .error .noLoadableFiles⟩
      else
        let chk := check_column_consistency cfg temp_dataframes
        match chk.result with
        | .error e => ⟨found_print ++ loop.1 ++ chk.prints, chk.warns, .error e⟩
        | .ok _ =>
          let dataframes := temp_dataframes.map Prod.fst
          let combined_df := pdConcatIgnoreIndex dataframes
          ⟨found_print ++ loop.1 ++ chk.prints ++ summaryPrints cfg dataframes.length combined_df,
           chk.warns, .ok combined_df⟩

/-- Embeds `SimpleDataLoader.load`: fail when the path does not exist, read a
regular file directly, merge a directory, and reject anything else. -/
def SimpleDataLoader.load (cfg : SimpleDataLoader) (ps : PathState) : Outcome DataFrame :=
  match ps with
  | .absent => ⟨[], [], .error .notFound⟩
  | .file name parse => load_single_file cfg ⟨name, parse⟩
  | .dir children => load_folder cfg children
  | .other => ⟨[], [], .error .invalidPath⟩

/-- The module-level convenience function `load_data`: construct the loader
(which may reject the policy value) and run `load`. -/
def load_data (include_subfolders verbose : Bool) (column_consistency : String)
    (ps : PathState) : Outcome DataFrame :=
  match mkSimpleDataLoader include_subfolders verbose column_consistency with
  | .error e => ⟨[], [], .error e⟩
  | .ok loader => loader.load ps

/-! ### Characterization devices and fixtures

The translated methods return `Outcome` records whose `result` and `warns`
components never depend on the `verbose` flag; the functions below compute
those components directly and are proved equal to the respective projections
in the lemma section.  `specColumnOrder` and `specSubtree` restate, in the
words of the specification, the column order of the concatenation and the
full-subtree reach of recursive discovery, for comparison with the
source-derived `unionCols` and `globAux`.  The `sample` values are concrete
fixtures used by witness theorems. -/

def singleResultOf (f : DataFile) : Except LoadError DataFrame :=
  let file_extension := strLower (fileSuffix f.name)
  if file_extension == ".csv" then
    match f.parse with
    | .ok df => .ok df
    | .err m => .error (.parseError m)
  else if ([".xlsx", ".xls"] : List String).contains file_extension then
    match f.parse with
    | .ok df => .ok df
    | .err m => .error (.parseError m)
  else
    .error (.unsupportedFormat file_extension)

def loadedOf (files : List DataFile) : List (DataFrame × String) :=
  files.filterMap fun f =>
    match singleResultOf f with
    | .ok df => some (df, f.name)
    | .error _ => none

def checkResultOf (cc : String) (temp : List (DataFrame × String)) : Except LoadError Unit :=
  if issuesOf temp = [] then .ok ()
  else if cc == "error" then .error (.schemaMismatch (schemaMsgOf temp))
  else .ok ()

def checkWarnsOf (cc : String) (temp : List (DataFrame × String)) : List String :=
  if issuesOf temp = [] then []
  else if cc == "error" then []
  else if cc == "warning" then [schemaMsgOf temp]
  else []

def folderResultOf (inc : Bool) (cc : String) (children : List FSEntry) : Except LoadError DataFrame :=
  let data_files := dataFilesOf (if inc then children ++ globAux children else children)
  if data_files = [] then .error .noSupportedFiles
  else
    let temp := loadedOf data_files
    if temp = [] then .error .noLoadableFiles
    else if cc == "ignore" then .ok (pdConcatIgnoreIndex (temp.map Prod.fst))
    else
      match checkResultOf cc temp with
      | .error e => .error e
      | .ok _ => .ok (pdConcatIgnoreIndex (temp.map Prod.fst))

def folderWarnsOf (inc : Bool) (cc : String) (children : List FSEntry) : List String :=
  let data_files := dataFilesOf (if inc then children ++ globAux children else children)
  if data_files = [] then []
  else if cc == "ignore" then []
  else
    let temp := loadedOf data_files
    if temp = [] then []
    else checkWarnsOf cc temp

def specColumnOrder (l : List String) : List String :=
  l.foldl (fun acc c => if c ∈ acc then acc else acc ++ [c]) []

def specSubtree : List FSEntry → List FSEntry
  | [] => []
  | FSEntry.file n p :: rest => FSEntry.file n p :: specSubtree rest
  | FSEntry.dir n cs :: rest => FSEntry.dir n cs :: (specSubtree cs ++ specSubtree rest)

/-- Fixture frame with columns a, b and two rows. -/
def sampleA : DataFrame :=
  ⟨["a", "b"], [0, 1], [[Cell.val "1", Cell.val "2"], [Cell.val "3", Cell.val "4"]]⟩

/-- Fixture frame with columns a, c, one row, and a non-zero row index. -/
def sampleB : DataFrame := ⟨["a", "c"], [5], [[Cell.val "5", Cell.val "6"]]⟩

/-- Folder fixture: two parseable CSV files with differing schemas. -/
def folderMismatch : List FSEntry :=
  [FSEntry.file "x.csv" (.ok sampleA), FSEntry.file "y.csv" (.ok sampleB)]

/-- Folder fixture: two parseable CSV files with identical schemas. -/
def folderMatch : List FSEntry :=
  [FSEntry.file "x.csv" (.ok sampleA), FSEntry.file "y.csv" (.ok sampleA)]

/-- Folder fixture: a subdirectory holding one CSV file. -/
def folderNested : List FSEntry :=
  [FSEntry.dir "sub" [FSEntry.file "deep.csv" (.ok sampleA)]]

/-! ### Lemmas -/

theorem load_single_file_result (cfg : SimpleDataLoader) (f : DataFile) :
    (load_single_file cfg f).result = singleResultOf f := by
  obtain ⟨n, p⟩ := f
  cases p <;> simp only [load_single_file, singleResultOf] <;> repeat' split
  all_goals rfl

theorem load_single_file_warns (cfg : SimpleDataLoader) (f : DataFile) :
    (load_single_file cfg f).warns = [] := by
  obtain ⟨n, p⟩ := f
  cases p <;> simp only [load_single_file] <;> repeat' split
  all_goals rfl

theorem loadFilesLoop_snd (cfg : SimpleDataLoader) (files : List DataFile) :
    (loadFilesLoop cfg files).2 = loadedOf files := by
  induction files with
  | nil => rfl
  | cons f rest ih =>
    have hres := load_single_file_result cfg f
    simp only [loadFilesLoop, loadedOf, List.filterMap_cons]
    cases h : singleResultOf f with
    | ok df => rw [hres, h]; simp only [loadedOf] at ih ⊢; rw [← ih]
    | error e => rw [hres, h]; simp only [loadedOf] at ih ⊢; rw [← ih]

theorem check_column_consistency_result (cfg : SimpleDataLoader) (temp : List (DataFrame × String)) :
    (check_column_consistency cfg temp).result = checkResultOf cfg.column_consistency temp := by
  match temp with
  | [] => rfl
  | [x] => rfl
  | (fd, fn) :: b :: t =>
    simp only [check_column_consistency, checkResultOf, issuesOf, schemaMsgOf]
    by_cases h : checkIssues fd.cols (b :: t) = []
    · simp [h, List.isEmpty_iff]
    · simp only [h, List.isEmpty_iff, if_false, if_neg h]
      by_cases he : cfg.column_consistency == "error"
      · simp [he]
      · simp only [he, if_false]
        by_cases hw : cfg.column_consistency == "warning" <;> simp [hw]

theorem check_column_consistency_warns (cfg : SimpleDataLoader) (temp : List (DataFrame × String)) :
    (check_column_consistency cfg temp).warns = checkWarnsOf cfg.column_consistency temp := by
  match temp with
  | [] => rfl
  | [x] => rfl
  | (fd, fn) :: b :: t =>
    simp only [check_column_consistency, checkWarnsOf, issuesOf, schemaMsgOf]
    by_cases h : checkIssues fd.cols (b :: t) = []
    · simp [h, List.isEmpty_iff]
    · simp only [h, List.isEmpty_iff, if_false, if_neg h]
      by_cases he : cfg.column_consistency == "error"
      · simp [he]
      · simp only [he, if_false]
        by_cases hw : cfg.column_consistency == "warning" <;> simp [hw]

theorem load_folder_result (cfg : SimpleDataLoader) (children : List FSEntry) :
    (load_folder cfg children).result =
      folderResultOf cfg.include_subfolders cfg.column_consistency children := by
  simp only [load_folder, folderResultOf, filesOf]
  set data_files :=
    dataFilesOf (if cfg.include_subfolders then children ++ globAux children else children)
    with hdf
  by_cases h1 : data_files = []
  · simp [h1]
  · have h1b : data_files.isEmpty = false := by simp [List.isEmpty_iff, h1]
    simp only [h1b, if_neg h1, Bool.false_eq_true, if_false]
    by_cases h2 : cfg.column_consistency == "ignore"
    · simp only [h2, if_true]
      rw [loadFilesLoop_snd]
      by_cases h3 : loadedOf data_files = []
      · simp [h3]
      · have h3b : ((loadedOf data_files).map Prod.fst).isEmpty = false := by
          simp [List.isEmpty_iff, h3]
        simp [h3b, if_neg h3, h3]
    · simp only [h2, if_false, Bool.false_eq_true]
      rw [loadFilesLoop_snd]
      by_cases h3 : loadedOf data_files = []
      · simp [h3]
      · have h3b : (loadedOf data_files).isEmpty = false := by simp [List.isEmpty_iff, h3]
        simp only [h3b, if_neg h3, Bool.false_eq_true, if_false]
        rw [check_column_consistency_result]
        cases checkResultOf cfg.column_consistency (loadedOf data_files) <;> simp

theorem load_folder_warns (cfg : SimpleDataLoader) (children : List FSEntry) :
    (load_folder cfg children).warns =
      folderWarnsOf cfg.include_subfolders cfg.column_consistency children := by
  simp only [load_folder, folderWarnsOf, filesOf]
  set data_files :=
    dataFilesOf (if cfg.include_subfolders then children ++ globAux children else children)
    with hdf
  by_cases h1 : data_files = []
  · simp [h1]
  · have h1b : data_files.isEmpty = false := by simp [List.isEmpty_iff, h1]
    simp only [h1b, if_neg h1, Bool.false_eq_true, if_false]
    by_cases h2 : cfg.column_consistency == "ignore"
    · simp only [h2, if_true]
      by_cases h3 : ((loadFilesLoop cfg data_files).2.map Prod.fst).isEmpty <;> simp [h3]
    · simp only [h2, if_false, Bool.false_eq_true]
      rw [loadFilesLoop_snd]
      by_cases h3 : loadedOf data_files = []
      · simp [h3]
      · have h3b : (loadedOf data_files).isEmpty = false := by simp [List.isEmpty_iff, h3]
        simp only [h3b, if_neg h3, Bool.false_eq_true, if_false]
        rw [← check_column_consistency_warns cfg (loadedOf data_files)]
        cases hc : (check_column_consistency cfg (loadedOf data_files)).result <;> simp

theorem issuesOf_cons (first_df : DataFrame) (fn : String) (rest : List (DataFrame × String)) :
    issuesOf ((first_df, fn) :: rest) = checkIssues first_df.cols rest := by
  cases rest <;> simp [issuesOf, checkIssues]

theorem singleResultOf_err (name msg : String) :
    singleResultOf ⟨name, .err msg⟩ = .error (.parseError msg)
    ∨ singleResultOf ⟨name, .err msg⟩ =
        .error (.unsupportedFormat (strLower (fileSuffix name))) := by
  unfold singleResultOf
  by_cases h1 : (strLower (fileSuffix name) == ".csv") = true
  · left; rw [if_pos h1]
  · rw [if_neg h1]
    by_cases h2 : ([".xlsx", ".xls"] : List String).contains (strLower (fileSuffix name)) = true
    · left; rw [if_pos h2]
    · right; rw [if_neg h2]

theorem singleResultOf_err_supported (name msg : String)
    (h : strLower (fileSuffix name) ∈ SDL_supported) :
    singleResultOf ⟨name, .err msg⟩ = .error (.parseError msg) := by
  unfold singleResultOf
  simp only [SDL_supported, List.mem_cons, List.not_mem_nil, or_false] at h
  rcases h with h | h | h <;> simp [h]

theorem folderResultOf_warning_eq_ignore (inc : Bool) (children : List FSEntry) :
    folderResultOf inc "warning" children = folderResultOf inc "ignore" children := by
  unfold folderResultOf
  set data_files := dataFilesOf (if inc then children ++ globAux children else children) with hdf
  by_cases h1 : data_files = []
  · simp [h1]
  · simp only [if_neg h1]
    by_cases h2 : loadedOf data_files = []
    · simp [h2]
    · simp only [if_neg h2]
      have : ("warning" == "ignore") = false := by decide
      simp only [this, Bool.false_eq_true, if_false, if_pos rfl]
      unfold checkResultOf
      by_cases h3 : issuesOf (loadedOf data_files) = [] <;> simp [h3]

theorem pdConcat_rows_length (ts : List DataFrame) :
    (pdConcatIgnoreIndex ts).rows.length = (ts.map fun t => t.rows.length).sum := by
  simp [pdConcatIgnoreIndex, List.length_flatten, List.map_map, Function.comp_def, List.length_map]

theorem foldl_dedup_eq (l : List String) :
    l.Nodup → ∀ acc : List String,
      l.foldl (fun acc c => if c ∈ acc then acc else acc ++ [c]) acc
        = acc ++ l.filter (fun c => decide (c ∉ acc)) := by
  induction l with
  | nil => intro _ acc; simp
  | cons c l ih =>
    intro h acc
    have hc : c ∉ l := (List.nodup_cons.mp h).1
    have hl : l.Nodup := (List.nodup_cons.mp h).2
    by_cases hm : c ∈ acc
    · simp only [List.foldl_cons, if_pos hm]
      rw [ih hl acc]
      simp [List.filter_cons, hm]
    · simp only [List.foldl_cons, if_neg hm]
      rw [ih hl (acc ++ [c])]
      have hfc : l.filter (fun x => decide (x ∉ acc ++ [c]))
          = l.filter (fun x => decide (x ∉ acc)) := by
        apply List.filter_congr
        intro x hx
        have hxc : x ≠ c := fun e => hc (e ▸ hx)
        simp [List.mem_append, hxc]
      rw [hfc]
      simp [List.filter_cons, hm, List.append_assoc]

theorem unionCols_eq_spec_aux (ts : List DataFrame) :
    (∀ t ∈ ts, t.cols.Nodup) → ∀ acc : List String,
      ts.foldl (fun acc t => acc ++ t.cols.filter (fun c => decide (c ∉ acc))) acc
        = ((ts.map DataFrame.cols).flatten).foldl
            (fun acc c => if c ∈ acc then acc else acc ++ [c]) acc := by
  induction ts with
  | nil => intro _ acc; simp
  | cons t ts ih =>
    intro h acc
    simp only [List.map_cons, List.flatten_cons, List.foldl_append, List.foldl_cons]
    rw [foldl_dedup_eq t.cols (h t (List.mem_cons_self t ts)) acc]
    exact ih (fun u hu => h u (List.mem_cons_of_mem t hu)) _

theorem unionCols_eq_spec (ts : List DataFrame) (h : ∀ t ∈ ts, t.cols.Nodup) :
    unionCols ts = specColumnOrder ((ts.map DataFrame.cols).flatten) := by
  unfold unionCols specColumnOrder
  exact unionCols_eq_spec_aux ts h []

theorem idxOf?_eq_none_of_not_mem (c : String) (l : List String) (h : c ∉ l) :
    idxOf? c l = none := by
  induction l with
  | nil => rfl
  | cons x xs ih =>
    have hx : x ≠ c := fun e => h (e ▸ List.mem_cons_self x xs)
    have hxs : c ∉ xs := fun m => h (List.mem_cons_of_mem x m)
    simp [idxOf?, hx, ih hxs]

theorem mem_glob_iff_mem_specSubtree (cs : List FSEntry) (x : FSEntry) :
    x ∈ cs ++ globAux cs ↔ x ∈ specSubtree cs := by
  induction cs using globAux.induct with
  | case1 => simp [globAux, specSubtree]
  | case2 n p rest ih =>
    simp only [globAux, specSubtree, List.cons_append, List.mem_cons, List.mem_append] at ih ⊢
    tauto
  | case3 n cs2 rest ih1 ih2 =>
    simp only [globAux, specSubtree, List.cons_append, List.mem_cons, List.mem_append] at ih1 ih2 ⊢
    tauto

/-! ### Claim theorems -/
/-- C1: under the `error` policy, when the consistency check of the loaded
files (first file as reference) finds at least one issue, the folder load
fails with the schema-mismatch error whose message is the composed
diagnostic (reference file name and columns first, then one block per issue
with file name, issue text, expected columns when present, and actual
columns, stripped); the concatenated table is produced only when zero
issues exist. -/
theorem c1_error_policy_gate (cfg : SimpleDataLoader) (children : List FSEntry)
    (first_df : DataFrame) (first_filename : String) (rest : List (DataFrame × String))
    (hpol : cfg.column_consistency = "error")
    (htemp : (loadFilesLoop cfg (dataFilesOf (filesOf cfg children))).2 =
      (first_df, first_filename) :: rest) :
    (checkIssues first_df.cols rest ≠ [] →
      (load_folder cfg children).result =
        .error (.schemaMismatch
          (pyStrip (composeMsg first_filename first_df.cols (checkIssues first_df.cols rest)))))
    ∧ (checkIssues first_df.cols rest = [] →
      (load_folder cfg children).result =
        .ok (pdConcatIgnoreIndex (((first_df, first_filename) :: rest).map Prod.fst))) := by
  rw [loadFilesLoop_snd] at htemp
  have hda : dataFilesOf (filesOf cfg children) ≠ [] := by
    intro h
    rw [h] at htemp
    simp [loadedOf] at htemp
  rw [load_folder_result]
  simp only [filesOf] at htemp hda
  simp only [folderResultOf, hda, if_neg hda, htemp, hpol]
  constructor
  · intro hiss
    have hne : ((first_df, first_filename) :: rest) ≠ ([] : List (DataFrame × String)) := by
      simp
    simp only [if_neg hne, checkResultOf, issuesOf_cons, hiss, if_neg hiss]
    simp [schemaMsgOf]
  · intro hiss
    have hne : ((first_df, first_filename) :: rest) ≠ ([] : List (DataFrame × String)) := by
      simp
    simp only [if_neg hne, checkResultOf, issuesOf_cons, hiss, if_pos rfl]
    simp

/-- Witness for C1 at a concrete mismatching and a concrete matching folder. -/
theorem c1_error_policy_gate_witness :
    (load_folder ⟨false, false, "error"⟩ folderMismatch).result =
      .error (.schemaMismatch
        (pyStrip (composeMsg "x.csv" sampleA.cols (checkIssues sampleA.cols [(sampleB, "y.csv")]))))
    ∧ (load_folder ⟨false, false, "error"⟩ folderMatch).result =
      .ok (pdConcatIgnoreIndex ([(sampleA, "x.csv"), (sampleA, "y.csv")].map Prod.fst)) :=
  ⟨(c1_error_policy_gate ⟨false, false, "error"⟩ folderMismatch sampleA "x.csv"
      [(sampleB, "y.csv")] rfl rfl).1 (by decide),
   (c1_error_policy_gate ⟨false, false, "error"⟩ folderMatch sampleA "x.csv"
      [(sampleA, "y.csv")] rfl rfl).2 (by decide)⟩

/-- C2: for a non-empty list of well-formed loaded tables, the concatenated
result has as columns the union by name of all column lists in order of
first appearance, its rows are the aligned rows in file order then original
row order, a row whose table lacks a column carries null there (and keeps
its own value for a column the table has), and the row index is the dense
0-based sequence. -/
theorem c2_concat_semantics (ts : List DataFrame) (hne : ts ≠ [])
    (hnd : ∀ t ∈ ts, t.cols.Nodup)
    (hw : ∀ t ∈ ts, ∀ r ∈ t.rows, r.length = t.cols.length) :
    (pdConcatIgnoreIndex ts).cols = specColumnOrder ((ts.map DataFrame.cols).flatten)
    ∧ (pdConcatIgnoreIndex ts).rows =
        (ts.map fun t => t.rows.map fun r =>
          reindexRow t.cols r (pdConcatIgnoreIndex ts).cols).flatten
    ∧ (∀ t ∈ ts, ∀ r ∈ t.rows, ∀ (j : Nat) (c : String), (pdConcatIgnoreIndex ts).cols[j]? = some c →
        (c ∉ t.cols →
          (reindexRow t.cols r (pdConcatIgnoreIndex ts).cols)[j]? = some Cell.null)
        ∧ (∀ i : Nat, idxOf? c t.cols = some i →
          (reindexRow t.cols r (pdConcatIgnoreIndex ts).cols)[j]? = some (r.getD i Cell.null)))
    ∧ (pdConcatIgnoreIndex ts).index =
        (List.range (pdConcatIgnoreIndex ts).rows.length).map Int.ofNat := by
  refine ⟨unionCols_eq_spec ts hnd, rfl, ?_, rfl⟩
  intro t ht r hr j c hc
  constructor
  · intro hmem
    simp only [reindexRow]
    rw [List.getElem?_map, hc]
    simp [idxOf?_eq_none_of_not_mem c t.cols hmem]
  · intro i hi
    simp only [reindexRow]
    rw [List.getElem?_map, hc]
    simp [hi]

/-- Witness for C2 at two concrete frames with overlapping schemas. -/
theorem c2_concat_semantics_witness :
    (pdConcatIgnoreIndex [sampleA, sampleB]).cols =
      specColumnOrder (([sampleA, sampleB].map DataFrame.cols).flatten)
    ∧ (pdConcatIgnoreIndex [sampleA, sampleB]).index =
        (List.range (pdConcatIgnoreIndex [sampleA, sampleB]).rows.length).map Int.ofNat :=
  ⟨(c2_concat_semantics [sampleA, sampleB] (by decide) (by decide) (by decide)).1,
   (c2_concat_semantics [sampleA, sampleB] (by decide) (by decide) (by decide)).2.2.2⟩

/-- C3: the consistency check is a no-op (and produces no issues) below two
loaded files; the issue list compares each subsequent file against the
first in file order; a column-count difference contributes the count
mismatch issue with the actual columns and no expected field; an equal
count with a different ordered name sequence contributes the names
mismatch issue carrying both actual and expected sequences; equal
sequences contribute nothing. -/
theorem c3_consistency_check :
    (∀ cfg (temp : List (DataFrame × String)), temp.length < 2 →
      check_column_consistency cfg temp = ⟨[], [], .ok ()⟩ ∧ issuesOf temp = [])
    ∧ (∀ (first_df : DataFrame) fn (rest : List (DataFrame × String)),
        issuesOf ((first_df, fn) :: rest) = checkIssues first_df.cols rest)
    ∧ (∀ first_columns (l1 l2 : List (DataFrame × String)),
        checkIssues first_columns (l1 ++ l2) =
          checkIssues first_columns l1 ++ checkIssues first_columns l2)
    ∧ (∀ first_columns (df : DataFrame) (fn : String),
        (df.cols.length ≠ first_columns.length →
          checkIssues first_columns [(df, fn)] =
            [⟨fn, "Column count mismatch: " ++ toString df.cols.length ++ " vs " ++
                toString first_columns.length, df.cols, none⟩])
        ∧ (df.cols.length = first_columns.length → df.cols ≠ first_columns →
          checkIssues first_columns [(df, fn)] =
            [⟨fn, "Column names mismatch", df.cols, some first_columns⟩])
        ∧ (df.cols = first_columns → checkIssues first_columns [(df, fn)] = [])) := by
  refine ⟨fun cfg temp h => ?_, issuesOf_cons, fun fc l1 l2 => by simp [checkIssues, List.filterMap_append], ?_⟩
  · match temp with
    | [] => exact ⟨rfl, rfl⟩
    | [x] => exact ⟨rfl, rfl⟩
    | a :: b :: t => simp only [List.length_cons] at h; omega
  · intro fc df fn
    refine ⟨fun h => ?_, fun h1 h2 => ?_, fun h => ?_⟩
    · simp [checkIssues, h]
    · simp [checkIssues, h1, h2]
    · simp [checkIssues, h]

/-- Witness for C3: a singleton list is a no-op and a names mismatch is
reported with both column sequences. -/
theorem c3_consistency_check_witness :
    check_column_consistency ⟨false, true, "error"⟩ [(sampleA, "x.csv")] = ⟨[], [], .ok ()⟩
    ∧ checkIssues sampleA.cols [(sampleB, "y.csv")] =
        [⟨"y.csv", "Column names mismatch", sampleB.cols, some sampleA.cols⟩] :=
  ⟨(c3_consistency_check.1 ⟨false, true, "error"⟩ [(sampleA, "x.csv")] (by decide)).1,
   (c3_consistency_check.2.2.2 sampleA.cols sampleB "y.csv").2.1 (by decide) (by decide)⟩

/-- C4: on any folder, the `warning` and `ignore` policies produce the same
result (hence tables of the same shape on the same loaded files); the
`ignore` run emits no warning at all, while the `warning` run emits exactly
the composed mismatch diagnostic when the issue list of the loaded files is
non-empty and nothing otherwise. -/
theorem c4_warning_ignore_equivalence (cfg : SimpleDataLoader) (children : List FSEntry) :
    (load_folder { cfg with column_consistency := "warning" } children).result =
      (load_folder { cfg with column_consistency := "ignore" } children).result
    ∧ (load_folder { cfg with column_consistency := "ignore" } children).warns = []
    ∧ (load_folder { cfg with column_consistency := "warning" } children).warns =
        (if issuesOf ((loadFilesLoop { cfg with column_consistency := "warning" }
              (dataFilesOf (filesOf { cfg with column_consistency := "warning" } children))).2) = []
         then []
         else [schemaMsgOf ((loadFilesLoop { cfg with column_consistency := "warning" }
              (dataFilesOf (filesOf { cfg with column_consistency := "warning" } children))).2)]) := by
  refine ⟨?_, ?_, ?_⟩
  · rw [load_folder_result, load_folder_result]
    exact folderResultOf_warning_eq_ignore cfg.include_subfolders children
  · rw [load_folder_warns]
    unfold folderWarnsOf
    by_cases h1 :
        dataFilesOf (if cfg.include_subfolders then children ++ globAux children else children) = []
    · simp [h1]
    · simp [h1]
  · rw [load_folder_warns, loadFilesLoop_snd]
    unfold folderWarnsOf
    show _ = (if issuesOf (loadedOf (dataFilesOf (filesOf cfg children))) = [] then _ else _)
    simp only [filesOf]
    set data_files := dataFilesOf (if cfg.include_subfolders then children ++ globAux children else children) with hdf
    by_cases h1 : data_files = []
    · simp [h1, loadedOf, issuesOf]
    · simp only [if_neg h1]
      have : ("warning" == "ignore") = false := by decide
      simp only [this, Bool.false_eq_true, if_false]
      by_cases h2 : loadedOf data_files = []
      · simp [h2, issuesOf]
      · simp only [if_neg h2]
        unfold checkWarnsOf
        by_cases h3 : issuesOf (loadedOf data_files) = [] <;> simp [h3]

/-- C5: every directory load that returns a table returns one whose row
count is the sum of the row counts of the successfully loaded files and
whose row index is the dense 0-based sequence, regardless of the input row
indices. -/
theorem c5_row_count_dense_index (cfg : SimpleDataLoader) (children : List FSEntry) (df : DataFrame)
    (h : (SimpleDataLoader.load cfg (PathState.dir children)).result = .ok df) :
    df.rows.length =
      (((loadFilesLoop cfg (dataFilesOf (filesOf cfg children))).2).map
        (fun p => p.1.rows.length)).sum
    ∧ df.index = (List.range df.rows.length).map Int.ofNat := by
  have h2 : (load_folder cfg children).result = .ok df := h
  rw [load_folder_result] at h2
  rw [loadFilesLoop_snd]
  unfold folderResultOf at h2
  simp only [filesOf]
  set data_files := dataFilesOf (if cfg.include_subfolders then children ++ globAux children else children) with hdf
  by_cases h3 : data_files = []
  · rw [if_pos h3] at h2; exact absurd h2 (by simp)
  · rw [if_neg h3] at h2
    by_cases h4 : loadedOf data_files = []
    · rw [if_pos h4] at h2; exact absurd h2 (by simp)
    · rw [if_neg h4] at h2
      have hdf2 : df = pdConcatIgnoreIndex ((loadedOf data_files).map Prod.fst) := by
        by_cases h5 : (cfg.column_consistency == "ignore") = true
        · rw [if_pos h5] at h2
          exact (Except.ok.injEq _ _ ▸ congrArg id h2).symm ▸ by
            cases h2 with | refl => rfl
        · rw [if_neg h5] at h2
          cases hc : checkResultOf cfg.column_consistency (loadedOf data_files) with
          | error e => rw [hc] at h2; exact absurd h2 (by simp)
          | ok u => rw [hc] at h2; cases h2 with | refl => rfl
      subst hdf2
      refine ⟨?_, rfl⟩
      rw [pdConcat_rows_length, List.map_map]
      rfl

/-- Witness for C5 at a concrete folder whose load succeeds. -/
theorem c5_row_count_dense_index_witness :
    (pdConcatIgnoreIndex [sampleA, sampleA]).rows.length =
      (((loadFilesLoop ⟨false, false, "error"⟩
          (dataFilesOf (filesOf ⟨false, false, "error"⟩ folderMatch))).2).map
        (fun p => p.1.rows.length)).sum
    ∧ (pdConcatIgnoreIndex [sampleA, sampleA]).index =
        (List.range (pdConcatIgnoreIndex [sampleA, sampleA]).rows.length).map Int.ofNat :=
  c5_row_count_dense_index ⟨false, false, "error"⟩ folderMatch
    (pdConcatIgnoreIndex [sampleA, sampleA]) rfl

/-- C6: a folder load fails with the no-supported-files error when
discovery finds nothing; a discovered file whose load fails is skipped (the
loaded list is unchanged), with the per-file diagnostic line printed when
verbose, and its error is not propagated; and when no file loads
successfully the call fails with the no-loadable-files error. -/
theorem c6_folder_error_handling (cfg : SimpleDataLoader) (children : List FSEntry) :
    (dataFilesOf (filesOf cfg children) = [] →
      (load_folder cfg children).result = .error .noSupportedFiles)
    ∧ (∀ name msg (rest : List DataFile),
        (loadFilesLoop cfg (⟨name, .err msg⟩ :: rest)).2 = (loadFilesLoop cfg rest).2)
    ∧ (∀ name msg (rest : List DataFile), strLower (fileSuffix name) ∈ SDL_supported →
        cfg.verbose = true →
        ("Error loading " ++ name ++ ": " ++ msg) ∈
          (loadFilesLoop cfg (⟨name, .err msg⟩ :: rest)).1)
    ∧ (dataFilesOf (filesOf cfg children) ≠ [] →
        (loadFilesLoop cfg (dataFilesOf (filesOf cfg children))).2 = [] →
        (load_folder cfg children).result = .error .noLoadableFiles) := by
  refine ⟨fun h => ?_, fun name msg rest => ?_, fun name msg rest hs hv => ?_, fun h1 h2 => ?_⟩
  · rw [load_folder_result]
    simp only [filesOf] at h
    simp [folderResultOf, h]
  · rw [loadFilesLoop_snd, loadFilesLoop_snd]
    rcases singleResultOf_err name msg with h | h <;> simp [loadedOf, h]
  · simp only [loadFilesLoop]
    rw [load_single_file_result, singleResultOf_err_supported name msg hs]
    simp only [hv, if_true, errStr]
    simp
  · rw [load_folder_result]
    rw [loadFilesLoop_snd] at h2
    simp only [filesOf] at h1 h2
    simp [folderResultOf, h1, h2]

/-- Witness for C6: an unsupported-only folder, a skipped failing file with
its logged line, and an all-failing folder. -/
theorem c6_folder_error_handling_witness :
    (load_folder ⟨false, true, "error"⟩ [FSEntry.file "notes.txt" (.err "nope")]).result =
      .error .noSupportedFiles
    ∧ (loadFilesLoop ⟨false, true, "error"⟩ [⟨"bad.csv", .err "boom"⟩]).2 =
        (loadFilesLoop ⟨false, true, "error"⟩ []).2
    ∧ ("Error loading " ++ "bad.csv" ++ ": " ++ "boom") ∈
        (loadFilesLoop ⟨false, true, "error"⟩ [⟨"bad.csv", .err "boom"⟩]).1
    ∧ (load_folder ⟨false, true, "error"⟩ [FSEntry.file "bad.csv" (.err "boom")]).result =
      .error .noLoadableFiles :=
  ⟨(c6_folder_error_handling ⟨false, true, "error"⟩ [FSEntry.file "notes.txt" (.err "nope")]).1 rfl,
   (c6_folder_error_handling ⟨false, true, "error"⟩ []).2.1 "bad.csv" "boom" [],
   (c6_folder_error_handling ⟨false, true, "error"⟩ []).2.2.1 "bad.csv" "boom" [] (by decide) rfl,
   (c6_folder_error_handling ⟨false, true, "error"⟩ [FSEntry.file "bad.csv" (.err "boom")]).2.2.2
     (by decide) rfl⟩

/-- C7: the top-level load fails with the not-found error on an absent
path, delegates a regular file to the single-file reader (which fails with
the unsupported-format error for any extension outside csv, xlsx, xls),
delegates a directory to the folder merge, and fails with the invalid-path
error on a path that is neither. -/
theorem c7_load_dispatch (cfg : SimpleDataLoader) :
    (SimpleDataLoader.load cfg PathState.absent).result = .error .notFound
    ∧ (∀ name parse, SimpleDataLoader.load cfg (PathState.file name parse) =
        load_single_file cfg ⟨name, parse⟩)
    ∧ (∀ name parse, strLower (fileSuffix name) ∉ SDL_supported →
        (SimpleDataLoader.load cfg (PathState.file name parse)).result =
          .error (.unsupportedFormat (strLower (fileSuffix name))))
    ∧ (∀ children, SimpleDataLoader.load cfg (PathState.dir children) = load_folder cfg children)
    ∧ (SimpleDataLoader.load cfg PathState.other).result = .error .invalidPath := by
  refine ⟨rfl, fun name parse => rfl, fun name parse h => ?_, fun children => rfl, rfl⟩
  show (load_single_file cfg ⟨name, parse⟩).result = _
  rw [load_single_file_result]
  simp only [SDL_supported, List.mem_cons, List.not_mem_nil, or_false, not_or] at h
  obtain ⟨h1, h2, h3⟩ := h
  cases parse <;> simp [singleResultOf, h1, h2, h3]

/-- Witness for C7: the absent path and a txt file. -/
theorem c7_load_dispatch_witness :
    (SimpleDataLoader.load ⟨false, true, "error"⟩ PathState.absent).result = .error .notFound
    ∧ (SimpleDataLoader.load ⟨false, true, "error"⟩
        (PathState.file "notes.txt" (.ok sampleA))).result =
      .error (.unsupportedFormat ".txt") :=
  ⟨(c7_load_dispatch ⟨false, true, "error"⟩).1,
   (c7_load_dispatch ⟨false, true, "error"⟩).2.2.1 "notes.txt" (.ok sampleA) (by decide)⟩

/-- C8: with the recursive flag off, discovery inspects exactly the direct
children of the root; with it on, exactly the full subtree; the retained
data files are exactly the regular files whose lowered extension is
supported; and a missing root fails with the not-found error. -/
theorem c8_file_discovery (cfg : SimpleDataLoader) (children : List FSEntry) :
    (cfg.include_subfolders = false → filesOf cfg children = children)
    ∧ (cfg.include_subfolders = true →
        ∀ e, e ∈ filesOf cfg children ↔ e ∈ specSubtree children)
    ∧ (∀ f : DataFile, f ∈ dataFilesOf (filesOf cfg children) ↔
        FSEntry.file f.name f.parse ∈ filesOf cfg children
        ∧ strLower (fileSuffix f.name) ∈ SDL_supported)
    ∧ (SimpleDataLoader.load cfg PathState.absent).result = .error .notFound := by
  refine ⟨fun h => ?_, fun h e => ?_, fun f => ?_, rfl⟩
  · simp [filesOf, h]
  · rw [show filesOf cfg children = children ++ globAux children by simp [filesOf, h]]
    exact mem_glob_iff_mem_specSubtree children e
  · obtain ⟨fn, fp⟩ := f
    constructor
    · intro hf
      obtain ⟨e, he, hge⟩ := List.mem_filterMap.mp hf
      cases e with
      | dir n cs => simp at hge
      | file n p =>
        by_cases hs : strLower (fileSuffix n) ∈ SDL_supported
        · simp [hs] at hge
          obtain ⟨rfl, rfl⟩ := hge
          exact ⟨he, hs⟩
        · simp [hs] at hge
    · rintro ⟨hmem, hs⟩
      apply List.mem_filterMap.mpr
      exact ⟨FSEntry.file fn fp, hmem, by simp [hs]⟩

/-- Witness for C8: a flat folder and a nested folder. -/
theorem c8_file_discovery_witness :
    filesOf ⟨false, true, "error"⟩ folderMismatch = folderMismatch
    ∧ (FSEntry.file "deep.csv" (.ok sampleA) ∈ filesOf ⟨true, true, "error"⟩ folderNested ↔
        FSEntry.file "deep.csv" (.ok sampleA) ∈ specSubtree folderNested) :=
  ⟨(c8_file_discovery ⟨false, true, "error"⟩ folderMismatch).1 rfl,
   (c8_file_discovery ⟨true, true, "error"⟩ folderNested).2.1 rfl
     (FSEntry.file "deep.csv" (.ok sampleA))⟩

/-- C9: construction rejects any policy value outside the three allowed
strings with the invalid-config error, independently of the path (so before
any path access), and accepts the three valid values, including the default
configuration. -/
theorem c9_constructor_validation (include_subfolders verbose : Bool) (column_consistency : String) :
    (column_consistency ∉ (["error", "warning", "ignore"] : List String) →
      mkSimpleDataLoader include_subfolders verbose column_consistency = .error .invalidConfig
      ∧ ∀ ps, load_data include_subfolders verbose column_consistency ps =
          ⟨[], [], .error .invalidConfig⟩)
    ∧ (column_consistency ∈ (["error", "warning", "ignore"] : List String) →
      mkSimpleDataLoader include_subfolders verbose column_consistency =
        .ok ⟨include_subfolders, verbose, column_consistency⟩)
    ∧ mkSimpleDataLoader false true "error" = .ok ⟨false, true, "error"⟩ := by
  refine ⟨fun h => ?_, fun h => ?_, rfl⟩
  · simp only [List.mem_cons, List.not_mem_nil, or_false, not_or] at h
    obtain ⟨h1, h2, h3⟩ := h
    refine ⟨by simp [mkSimpleDataLoader, h1, h2, h3], fun ps => ?_⟩
    simp [load_data, mkSimpleDataLoader, h1, h2, h3]
  · simp only [List.mem_cons, List.not_mem_nil, or_false] at h
    rcases h with h | h | h <;> subst h <;> simp [mkSimpleDataLoader]

/-- Witness for C9: a bogus policy value and two valid ones. -/
theorem c9_constructor_validation_witness :
    mkSimpleDataLoader false true "bogus" = .error .invalidConfig
    ∧ mkSimpleDataLoader false true "warning" = .ok ⟨false, true, "warning"⟩
    ∧ mkSimpleDataLoader false true "error" = .ok ⟨false, true, "error"⟩ :=
  ⟨((c9_constructor_validation false true "bogus").1 (by decide)).1,
   (c9_constructor_validation false true "warning").2.1 (by decide),
   (c9_constructor_validation false true "error").2.2⟩

/-- C10: the result (value or error) and the emitted warnings of a load are
identical for any two settings of the verbose flag; verbosity influences
only the printed console diagnostics. -/
theorem c10_verbose_noninterference (cfg : SimpleDataLoader) (b1 b2 : Bool) (ps : PathState) :
    ({ cfg with verbose := b1 }.load ps).result = ({ cfg with verbose := b2 }.load ps).result
    ∧ ({ cfg with verbose := b1 }.load ps).warns = ({ cfg with verbose := b2 }.load ps).warns := by
  cases ps with
  | absent => exact ⟨rfl, rfl⟩
  | other => exact ⟨rfl, rfl⟩
  | file name parse =>
    constructor
    · show (load_single_file _ ⟨name, parse⟩).result = (load_single_file _ ⟨name, parse⟩).result
      rw [load_single_file_result, load_single_file_result]
    · show (load_single_file _ ⟨name, parse⟩).warns = (load_single_file _ ⟨name, parse⟩).warns
      rw [load_single_file_warns, load_single_file_warns]
  | dir children =>
    constructor
    · show (load_folder _ children).result = (load_folder _ children).result
      rw [load_folder_result, load_folder_result]
    · show (load_folder _ children).warns = (load_folder _ children).warns
      rw [load_folder_warns, load_folder_warns]
